import Mathlib

/-!
# Charge-battery task glue and the GoToPlace event of the fleet adapter

Shallow embedding of

* `rmf_fleet_adapter/tasks/ChargeBattery.cpp` (descriptions, standby factories,
  the event deserializer, the bundle unfolder, the task unfolder and
  `add_charge_battery`), and
* the declarations of `rmf_fleet_adapter/events/GoToPlace.hpp`.

Mutable C++ objects are values that are passed in and returned.  A
`std::function<rmf_task::State()>` is a function of the ambient world `σ`, read
at the moment of the call.  Objects that the code only hands on (identifiers,
callbacks, workers, clocks) are opaque handles.
-/

namespace RmfFleetAdapter

/-! ## Opaque handles -/

/-- Handle of an `rmf_task_sequence::Event::AssignIDPtr`. -/
abbrev AssignIDPtr := Nat

/-- Handle of a `std::function<void()>` callback. -/
abbrev Callback := Nat

/-- An `rmf_traffic::Duration`, in nanoseconds. -/
abbrev Duration := Int

/-- Handle of the `rxcpp` worker of a robot context. -/
abbrev Worker := Nat

/-- Handle of the clock of a robot context. -/
abbrev Clock := Nat

/-- Handle of a `rmf_battery::agv::BatterySystem`. -/
abbrev BatterySystem := Nat

/-- A state of charge; the `double` is carried as its bit pattern and is never
computed on by the code embedded here. -/
abbrev Soc := Nat

/-- Handle of an `rmf_task::events::SimpleEventStatePtr`. -/
abbrev SimpleEventStatePtr := Nat

/-! ## JSON values (`nlohmann::json`) -/

/-- A `nlohmann::json` value.  A floating point number is carried as its bit
pattern. -/
inductive Json where
  | null
  | boolean (b : Bool)
  | number_integer (n : Int)
  | number_unsigned (n : Nat)
  | number_float (bits : Nat)
  | string (s : String)
  | array (elements : List Json)
  | object (members : List (String × Json))

/-- The member lookup `msg.find(key)`: `none` stands for `msg.end()`, which is
also what `find` gives on a value that is not an object. -/
def Json.find (msg : Json) (key : String) : Option Json :=
  match msg with
  | Json.object members => members.lookup key
  | _ => none

/-! ## Robot state -/

/-- The parts of `agv::RobotContext` that the embedded code reads:
`location()`, `map()`, `dedicated_charger_wp()`, `worker()`, `clock()` and
`task_planner()->configuration().constraints().recharge_soc()`. -/
structure RobotContext where
  location : Nat
  map : String
  dedicated_charger_wp : Nat
  worker : Worker
  clock : Clock
  recharge_soc : Soc

/-- An `rmf_task::State`; `state.get<agv::GetContext>()->value` is `context`. -/
structure State where
  context : RobotContext

/-- The `rmf_task::Parameters` of the task planner; only `battery_system()` is
read. -/
structure Parameters where
  battery_system : BatterySystem

/-! ## Goals and the GoToPlace description -/

/-- An `rmf_traffic::agv::Plan::Goal`: a waypoint index and an optional
orientation (bit pattern of the `double`). -/
structure Goal where
  waypoint : Nat
  orientation : Option Nat
deriving DecidableEq

/-- The converting constructor `Goal(std::size_t waypoint)`. -/
def Goal.of_waypoint (waypoint : Nat) : Goal :=
  { waypoint := waypoint, orientation := none }

/-- Modelled from the spec: the type `rmf_task_sequence::events::GoToPlace::Description`,
whose declaration is not part of the sources.  It holds the acceptable
destinations in Description order and the filter that restricts the choice to
the current map of the robot. -/
structure GoToPlaceDescription where
  one_of : List Goal
  prefer_same_map : Bool
deriving DecidableEq

/-- Modelled from the spec: `GoToPlace::Description::make(goal)`, the description
that accepts the single destination `goal`. -/
def GoToPlaceDescription.make (goal : Goal) : GoToPlaceDescription :=
  { one_of := [goal], prefer_same_map := false }

/-- Modelled from the spec: `GoToPlace::Description::destination()`, the first
acceptable destination. -/
def GoToPlaceDescription.destination (d : GoToPlaceDescription) : Option Goal :=
  d.one_of.head?

/-! ## Collaborators whose bodies are outside the sources -/

/-- The functions called by `ChargeBattery.cpp` whose bodies are not part of the
sources.  `S` is `Event::StandbyPtr`, `A` is `Event::ActivePtr`, `L` is the
legacy pending phase and `σ` is the ambient world read by `get_state`. -/
structure Collaborators (σ S A L : Type) where
  /-- The factory `events::GoToPlace::Standby::make(id, get_state, parameters,
  description, update, tail_period)`. -/
  go_to_place_standby_make :
    AssignIDPtr → (σ → State) → Parameters → GoToPlaceDescription → Callback →
      Option Duration → σ → S
  /-- The factory `phases::WaitForCharge::make(context, battery_system,
  recharge_soc)`. -/
  wait_for_charge_make : RobotContext → BatterySystem → Soc → L
  /-- The factory `events::LegacyPhaseShim::Standby::make(legacy, worker, clock,
  id, update)`. -/
  legacy_phase_shim_standby_make :
    L → Worker → Clock → AssignIDPtr → Callback → S
  /-- The virtual method `Event::Standby::begin(checkpoint, finished)`. -/
  begin : S → Callback → Callback → A

/-! ## Placeholder descriptions of `ChargeBattery.cpp` -/

/-- The base `rmf_task_sequence::events::Placeholder::Description(category,
detail)`. -/
structure PlaceholderDescription where
  category : String
  detail : String
deriving DecidableEq

/-- The struct `GoToChargerDescription`. -/
structure GoToChargerDescription extends PlaceholderDescription where
  charger_waypoint : Nat
  has_charger_waypoint : Bool
deriving DecidableEq

/-- The default constructor `GoToChargerDescription()`. -/
def GoToChargerDescription.ctor : GoToChargerDescription :=
  { category := "Go to charger", detail := "",
    charger_waypoint := 0, has_charger_waypoint := false }

/-- The constructor `GoToChargerDescription(charger_waypoint)`. -/
def GoToChargerDescription.ctor_waypoint (charger_waypoint : Nat) :
    GoToChargerDescription :=
  { category := "Go to charger", detail := "",
    charger_waypoint := charger_waypoint, has_charger_waypoint := true }

/-- The struct `WaitForChargeDescription`. -/
structure WaitForChargeDescription extends PlaceholderDescription where
deriving DecidableEq

/-- The constructor `WaitForChargeDescription()`. -/
def WaitForChargeDescription.ctor : WaitForChargeDescription :=
  { category := "Wait for charging", detail := "" }

/-- The struct `ChargeBatteryEventDescription`. -/
structure ChargeBatteryEventDescription extends PlaceholderDescription where
  charger_waypoint : Nat
  has_charger_waypoint : Bool
deriving DecidableEq

/-- The default constructor `ChargeBatteryEventDescription()`. -/
def ChargeBatteryEventDescription.ctor : ChargeBatteryEventDescription :=
  { category := "Charge Battery", detail := "",
    charger_waypoint := 0, has_charger_waypoint := false }

/-- The constructor `ChargeBatteryEventDescription(charger_waypoint)`. -/
def ChargeBatteryEventDescription.ctor_waypoint (charger_waypoint : Nat) :
    ChargeBatteryEventDescription :=
  { category := "Charge Battery", detail := "",
    charger_waypoint := charger_waypoint, has_charger_waypoint := true }

/-- A `std::shared_ptr<const Event::Description>` that points to one of the
description types of `ChargeBattery.cpp`. -/
inductive EventDescription where
  | go_to_charger (d : GoToChargerDescription)
  | wait_for_charge (d : WaitForChargeDescription)
  | charge_battery_event (d : ChargeBatteryEventDescription)
deriving DecidableEq

/-! ## Standby factories -/

section Factories

variable {σ S A L : Type}

/-- The function `GoToChargerDescription::standby`. -/
def GoToChargerDescription.standby (C : Collaborators σ S A L)
    (id : AssignIDPtr) (get_state : σ → State) (parameters : Parameters)
    (description : GoToChargerDescription) (update : Callback) (now : σ) : S :=
  let state := get_state now
  let context := state.context
  -- Get specified charger waypoint if available
  let charger_waypoint :=
    if description.has_charger_waypoint then description.charger_waypoint
    else context.dedicated_charger_wp
  C.go_to_place_standby_make id get_state parameters
    (GoToPlaceDescription.make (Goal.of_waypoint charger_waypoint)) update none now

/-- The function `WaitForChargeDescription::standby`. -/
def WaitForChargeDescription.standby (C : Collaborators σ S A L)
    (id : AssignIDPtr) (get_state : σ → State) (parameters : Parameters)
    (_description : WaitForChargeDescription) (update : Callback) (now : σ) : S :=
  let state := get_state now
  let context := state.context
  let legacy :=
    C.wait_for_charge_make context parameters.battery_system context.recharge_soc
  C.legacy_phase_shim_standby_make legacy context.worker context.clock id update

end Factories

/-! ## Bundles and the event unfolder -/

/-- The enum `rmf_task_sequence::events::Bundle::Type`. -/
inductive BundleType where
  | Sequence
  | ParallelAll
  | ParallelAny
deriving DecidableEq

/-- The value built by `Bundle::Description(dependencies, type, category,
detail)`; `detail` is left at its default `std::nullopt` by the callers here. -/
structure BundleDescription where
  dependencies : List EventDescription
  type : BundleType
  category : Option String
  detail : Option String
deriving DecidableEq

/-- The lambda `charge_battery_event_unfolder` of `add_charge_battery`. -/
def charge_battery_event_unfolder (desc : ChargeBatteryEventDescription) :
    BundleDescription :=
  -- Set charger waypoint if available
  if desc.has_charger_waypoint then
    { dependencies :=
        [EventDescription.go_to_charger
           (GoToChargerDescription.ctor_waypoint desc.charger_waypoint),
         EventDescription.wait_for_charge WaitForChargeDescription.ctor],
      type := BundleType.Sequence, category := some "Charge Battery", detail := none }
  else
    { dependencies :=
        [EventDescription.go_to_charger GoToChargerDescription.ctor,
         EventDescription.wait_for_charge WaitForChargeDescription.ctor],
      type := BundleType.Sequence, category := some "Charge Battery", detail := none }

/-! ## The event deserializer -/

/-- The value `agv::DeserializedPlace`: an optional goal and a list of errors. -/
structure DeserializedPlace where
  description : Option Goal
  errors : List String
deriving DecidableEq

/-- The value `agv::DeserializedEvent`: a description pointer (`none` is
`nullptr`) and a list of errors. -/
structure DeserializedEvent where
  description : Option EventDescription
  errors : List String
deriving DecidableEq

/-- The lambda `deserialize_charge_battery` of `add_charge_battery`, with its
capture `place_deser`.  The place deserializer is a function, so its repeated
calls on the same value agree. -/
def deserialize_charge_battery (place_deser : Json → DeserializedPlace)
    (msg : Json) : DeserializedEvent :=
  match msg.find "charger_waypoint" with
  | none =>
    { description :=
        some (EventDescription.charge_battery_event ChargeBatteryEventDescription.ctor),
      errors := [] }
  | some value =>
    -- If an invalid place is given send it back to dedicated charger
    if !(place_deser value).description.isSome then
      { description := none, errors := (place_deser value).errors }
    else
      match (place_deser value).description with
      | some place =>
        { description :=
            some (EventDescription.charge_battery_event
              (ChargeBatteryEventDescription.ctor_waypoint place.waypoint)),
          errors := [] }
      -- not reached: `value()` is only called when `has_value()` holds
      | none => { description := none, errors := (place_deser value).errors }

/-! ## Tasks -/

/-- The value built by `phases::SimplePhase::Description::make(final_event,
category, detail)`. -/
structure SimplePhaseDescription where
  final_event : EventDescription
  category : Option String
  detail : Option String
deriving DecidableEq

/-- One stage of a task: a phase and its cancellation sequence. -/
structure TaskStage where
  phase : SimplePhaseDescription
  cancellation_sequence : List SimplePhaseDescription
deriving DecidableEq

/-- The value `rmf_task_sequence::Task::Description`. -/
structure TaskDescription where
  category : String
  detail : String
  stages : List TaskStage
deriving DecidableEq

/-- The object `rmf_task_sequence::Task::Builder`; a fresh builder has no
stage. -/
structure TaskBuilder where
  stages : List TaskStage
deriving DecidableEq

/-- The constructor `Task::Builder()`. -/
def TaskBuilder.ctor : TaskBuilder := { stages := [] }

/-- The method `Task::Builder::add_phase(description, cancellation_sequence)`. -/
def TaskBuilder.add_phase (builder : TaskBuilder) (description : SimplePhaseDescription)
    (cancellation_sequence : List SimplePhaseDescription) : TaskBuilder :=
  { stages := builder.stages ++
      [{ phase := description, cancellation_sequence := cancellation_sequence }] }

/-- The method `Task::Builder::build(category, detail)`. -/
def TaskBuilder.build (builder : TaskBuilder) (category detail : String) :
    TaskDescription :=
  { category := category, detail := detail, stages := builder.stages }

/-- The lambda `charge_battery_task_unfolder` of `add_charge_battery`; `R` is
`rmf_task::requests::ChargeBattery::Description`, which the lambda ignores. -/
def charge_battery_task_unfolder {R : Type} (_request : R) : TaskDescription :=
  let builder := TaskBuilder.ctor
  let builder := builder.add_phase
    { final_event :=
        EventDescription.charge_battery_event ChargeBatteryEventDescription.ctor,
      category := some "Charge Battery", detail := some "" } []
  builder.build "Charge Battery" ""

/-! ## Registries -/

/-- The C++ types under which factories are registered. -/
inductive DescriptionType where
  | GoToChargerDescription
  | WaitForChargeDescription
  | ChargeBatteryEventDescription
deriving DecidableEq

/-- A standby factory registered for the description type `D`. -/
abbrev StandbyFactory (σ S D : Type) :=
  AssignIDPtr → (σ → State) → Parameters → D → Callback → σ → S

/-- An active factory registered for the description type `D`; the fifth
argument is the backup `nlohmann::json`, followed by `update`, `checkpoint` and
`finished`. -/
abbrev ActiveFactory (σ A D : Type) :=
  AssignIDPtr → (σ → State) → Parameters → D → Json → Callback → Callback →
    Callback → σ → A

/-- One call `initializer.add<D>(standby factory, active factory)` on an
`rmf_task_sequence::Event::Initializer`.  `Bundle::unfold<D>` makes one such
call with factories that hold the unfolder and the initializer to unfold
with. -/
inductive Registration (σ S A : Type) where
  | go_to_charger (standby : StandbyFactory σ S GoToChargerDescription)
      (active : ActiveFactory σ A GoToChargerDescription)
  | wait_for_charge (standby : StandbyFactory σ S WaitForChargeDescription)
      (active : ActiveFactory σ A WaitForChargeDescription)
  | charge_battery_event
      (unfold_description : ChargeBatteryEventDescription → BundleDescription)
      (unfold_with : List (Registration σ S A))

/-- The description type a registration was made for. -/
def Registration.type {σ S A : Type} : Registration σ S A → DescriptionType
  | Registration.go_to_charger _ _ => DescriptionType.GoToChargerDescription
  | Registration.wait_for_charge _ _ => DescriptionType.WaitForChargeDescription
  | Registration.charge_battery_event _ _ =>
    DescriptionType.ChargeBatteryEventDescription

/-- An `rmf_task_sequence::Event::Initializer`, as the calls of `add` it has
received, oldest first. -/
abbrev Initializer (σ S A : Type) := List (Registration σ S A)

/-- The method `Event::Initializer::add`. -/
def Initializer.add {σ S A : Type} (initializer : Initializer σ S A)
    (registration : Registration σ S A) : Initializer σ S A :=
  initializer ++ [registration]

section Registries

variable {σ S A L R : Type}

/-- The function `GoToChargerDescription::add`. -/
def GoToChargerDescription.add (C : Collaborators σ S A L)
    (initializer : Initializer σ S A) : Initializer σ S A :=
  Initializer.add initializer (Registration.go_to_charger
    (fun id get_state parameters description update now =>
      GoToChargerDescription.standby C id get_state parameters description update now)
    (fun id get_state parameters description _backup update checkpoint finished now =>
      C.begin
        (GoToChargerDescription.standby C id get_state parameters description update now)
        checkpoint finished))

/-- The function `WaitForChargeDescription::add`. -/
def WaitForChargeDescription.add (C : Collaborators σ S A L)
    (initializer : Initializer σ S A) : Initializer σ S A :=
  Initializer.add initializer (Registration.wait_for_charge
    (fun id get_state parameters description update now =>
      WaitForChargeDescription.standby C id get_state parameters description update now)
    (fun id get_state parameters description _backup update checkpoint finished now =>
      C.begin
        (WaitForChargeDescription.standby C id get_state parameters description update now)
        checkpoint finished))

/-- The call `Bundle::unfold<ChargeBatteryEventDescription>(unfold_description,
add_to, unfold_with)`: one registration on `add_to` that holds the unfolder and
the initializer handed over at the call. -/
def Bundle.unfold
    (unfold_description : ChargeBatteryEventDescription → BundleDescription)
    (add_to : Initializer σ S A) (unfold_with : Initializer σ S A) :
    Initializer σ S A :=
  Initializer.add add_to (Registration.charge_battery_event unfold_description unfold_with)

/-- One entry of `agv::TaskDeserialization::event`: a name, the schema its
validator checks and the deserializer. -/
structure EventDeserializerEntry where
  name : String
  validator : Json
  deserializer : Json → DeserializedEvent

/-- The parts of `agv::TaskDeserialization` used by `add_charge_battery`. -/
structure TaskDeserialization where
  place : Json → DeserializedPlace
  schemas : List Json
  event : List EventDeserializerEntry

/-- The method `TaskDeserialization::add_schema`. -/
def TaskDeserialization.add_schema (d : TaskDeserialization) (schema : Json) :
    TaskDeserialization :=
  { d with schemas := d.schemas ++ [schema] }

/-- The method `TaskDeserialization::make_validator_shared`; a validator is known
by the schema it checks. -/
def TaskDeserialization.make_validator_shared (_d : TaskDeserialization)
    (schema : Json) : Json :=
  schema

/-- The call `deserialization.event->add(name, validator, deserializer)`. -/
def TaskDeserialization.event_add (d : TaskDeserialization) (name : String)
    (validator : Json) (deserializer : Json → DeserializedEvent) :
    TaskDeserialization :=
  { d with event := d.event ++
      [{ name := name, validator := validator, deserializer := deserializer }] }

/-- One call `rmf_task_sequence::Task::unfold<R>(unfold_description,
task_activator, phase_activator, clock)` received by an
`rmf_task::Activator`. -/
structure TaskActivation (R : Type) where
  unfold_description : R → TaskDescription
  phase_activator : Nat
  clock : Nat

/-- The call `Task::unfold<ChargeBattery::Description>`. -/
def Task.unfold (unfold_description : R → TaskDescription)
    (task_activator : List (TaskActivation R)) (phase_activator : Nat)
    (clock : Nat) : List (TaskActivation R) :=
  task_activator ++
    [{ unfold_description := unfold_description,
       phase_activator := phase_activator, clock := clock }]

/-- The objects that `add_charge_battery` receives by reference, after the
call. -/
structure Registries (σ S A R : Type) where
  deserialization : TaskDeserialization
  task_activator : List (TaskActivation R)
  event_initializer : Initializer σ S A

/-- The function `add_charge_battery`.  The constant
`schemas::event_description__charge_battery` is a parameter. -/
def add_charge_battery (C : Collaborators σ S A L)
    (event_description__charge_battery : Json)
    (deserialization : TaskDeserialization)
    (task_activator : List (TaskActivation R)) (phase_activator : Nat)
    (event_initializer : Initializer σ S A) (clock : Nat) : Registries σ S A R :=
  let deserialization := deserialization.add_schema event_description__charge_battery
  let validate_charge_battery :=
    deserialization.make_validator_shared event_description__charge_battery
  let deserialization :=
    deserialization.event_add "charge_battery" validate_charge_battery
      (deserialize_charge_battery deserialization.place)
  let private_initializer : Initializer σ S A := []
  let private_initializer := WaitForChargeDescription.add C private_initializer
  let private_initializer := GoToChargerDescription.add C private_initializer
  let event_initializer :=
    Bundle.unfold charge_battery_event_unfolder event_initializer private_initializer
  let task_activator :=
    Task.unfold charge_battery_task_unfolder task_activator phase_activator clock
  { deserialization := deserialization, task_activator := task_activator,
    event_initializer := event_initializer }

end Registries

/-! ## The GoToPlace event (`events/GoToPlace.hpp`) -/

/-- The data members of `GoToPlace::Active` that are plain values (the
negotiator, the services, the timers and the subscriptions are left out), with
the default member initializers of the header. -/
structure GoToPlaceActive where
  _description : GoToPlaceDescription
  _chosen_goal : Option Goal := none
  _assign_id : AssignIDPtr
  _context : RobotContext
  _tail_period : Option Duration
  _update : Callback
  _finished : Callback
  _state : SimpleEventStatePtr
  _is_interrupted : Bool := false
  _is_final_destination : Bool := true
  _reached_waitpoint : Bool := false

/-- The data members of `GoToPlace::Standby`, with the default member
initializer `_active = nullptr` of the header. -/
structure GoToPlaceStandby where
  _description : GoToPlaceDescription
  _assign_id : AssignIDPtr
  _context : RobotContext
  _time_estimate : Duration
  _tail_period : Option Duration
  _update : Callback
  _state : SimpleEventStatePtr
  _active : Option GoToPlaceActive := none

/-- What `GoToPlace::Standby::make` computes outside the sources: the coarse
duration estimate and the fresh event state. -/
structure StandbyServices where
  estimate : RobotContext → GoToPlaceDescription → Duration
  new_state : AssignIDPtr → SimpleEventStatePtr

/-- Modelled from the spec: the body of `GoToPlace::Standby::make`, which is not
part of the sources.  It constructs a Standby bound to the robot context and the
Description and computes an initial duration estimate; `_active` keeps the
initializer of the header. -/
def GoToPlaceStandby.make {σ : Type} (V : StandbyServices) (id : AssignIDPtr)
    (get_state : σ → State) (_parameters : Parameters)
    (description : GoToPlaceDescription) (update : Callback)
    (tail_period : Option Duration) (now : σ) : GoToPlaceStandby :=
  let context := (get_state now).context
  { _description := description, _assign_id := id, _context := context,
    _time_estimate := V.estimate context description,
    _tail_period := tail_period, _update := update, _state := V.new_state id }

/-- Modelled from the spec: the body of `GoToPlace::Active::make(id, context,
description, tail_period, state, update, finished)`, which is not part of the
sources.  It constructs the Active from its arguments. -/
def GoToPlaceActive.make (id : AssignIDPtr) (context : RobotContext)
    (description : GoToPlaceDescription) (tail_period : Option Duration)
    (state : SimpleEventStatePtr) (update finished : Callback) : GoToPlaceActive :=
  { _description := description, _assign_id := id, _context := context,
    _tail_period := tail_period, _update := update, _finished := finished,
    _state := state }

/-- The outcome of calling `begin` on a Standby that has an Active already. -/
inductive BeginError where
  | already_active
deriving DecidableEq

/-- Modelled from the spec: the body of `GoToPlace::Standby::begin`, which is not
part of the sources.  It transitions to Active exactly once, and calling it
twice is a programming error.  The result holds the Standby after the call and
the Active. -/
def GoToPlaceStandby.begin (self : GoToPlaceStandby) (_checkpoint finished : Callback) :
    Except BeginError (GoToPlaceStandby × GoToPlaceActive) :=
  match self._active with
  | none =>
    let active := GoToPlaceActive.make self._assign_id self._context
      self._description self._tail_period self._state self._update finished
    Except.ok ({ self with _active := some active }, active)
  | some _ => Except.error BeginError.already_active

/-- A sequence of `begin` calls on one Standby, each with its `checkpoint` and
`finished` callbacks: the Standby after the calls and, per call, the Active that
was constructed (`none` where the call was an error). -/
def GoToPlaceStandby.begin_all :
    GoToPlaceStandby → List (Callback × Callback) →
      GoToPlaceStandby × List (Option GoToPlaceActive)
  | self, [] => (self, [])
  | self, call :: calls =>
    match self.begin call.1 call.2 with
    | Except.ok (next, active) =>
      let rest := GoToPlaceStandby.begin_all next calls
      (rest.1, some active :: rest.2)
    | Except.error _ =>
      let rest := GoToPlaceStandby.begin_all self calls
      (rest.1, none :: rest.2)

/-- What the goal selection reads from the navigation graph and the planner: the
map of a waypoint and the path distance between two waypoints. -/
structure Navigation where
  map_name : Nat → String
  distance : Nat → Nat → Nat

/-- A candidate qualifies when `only_same_map` is off or when it is on the map
the robot is on. -/
def GoToPlaceActive.qualifies (nav : Navigation) (self : GoToPlaceActive)
    (only_same_map : Bool) (goal : Goal) : Bool :=
  !only_same_map || nav.map_name goal.waypoint == self._context.map

/-- The scan of the candidates in Description order: `best` is replaced only by
a qualifying candidate that is strictly nearer. -/
def GoToPlaceActive.nearest (nav : Navigation) (self : GoToPlaceActive)
    (only_same_map : Bool) : List Goal → Option Goal → Option Goal
  | [], best => best
  | goal :: goals, best =>
    if GoToPlaceActive.qualifies nav self only_same_map goal then
      match best with
      | none => GoToPlaceActive.nearest nav self only_same_map goals (some goal)
      | some b =>
        if nav.distance self._context.location goal.waypoint
            < nav.distance self._context.location b.waypoint then
          GoToPlaceActive.nearest nav self only_same_map goals (some goal)
        else GoToPlaceActive.nearest nav self only_same_map goals best
    else GoToPlaceActive.nearest nav self only_same_map goals best

/-- Modelled from the spec: the body of `GoToPlace::Active::_choose_goal`, which
is not part of the sources.  Given the current robot location, the acceptable
destinations of the Description and the flag `only_same_map`, it returns the
nearest acceptable waypoint by path distance, the first in Description order
among equal distances, or `none` if no candidate qualifies. -/
def GoToPlaceActive._choose_goal (nav : Navigation) (self : GoToPlaceActive)
    (only_same_map : Bool) : Option Goal :=
  GoToPlaceActive.nearest nav self only_same_map self._description.one_of none

/-! ## Concrete inputs -/

/-- A robot at waypoint 3 on map L1 whose dedicated charger is waypoint 7. -/
def sample_context : RobotContext :=
  { location := 3, map := "L1", dedicated_charger_wp := 7,
    worker := 0, clock := 0, recharge_soc := 0 }

/-- Collaborators that record what they are called with: a Standby is the
GoToPlace description it was made for (`none` for the legacy shim) and an Active
is its Standby. -/
def recording : Collaborators Unit (Option GoToPlaceDescription)
    (Option GoToPlaceDescription) Unit :=
  { go_to_place_standby_make := fun _ _ _ description _ _ _ => some description,
    wait_for_charge_make := fun _ _ _ => (),
    legacy_phase_shim_standby_make := fun _ _ _ _ _ => none,
    begin := fun standby _ _ => standby }

/-- A place deserializer that knows the places `pantry` (waypoint 4) and
`lounge` (waypoint 9) and reports an error for everything else. -/
def sample_place_deser (value : Json) : DeserializedPlace :=
  match value with
  | Json.string "pantry" => { description := some (Goal.of_waypoint 4), errors := [] }
  | Json.string "lounge" => { description := some (Goal.of_waypoint 9), errors := [] }
  | _ => { description := none, errors := ["unknown place"] }

/-- The navigation of the two-map scenario: waypoint 9 is on map L2 and every
other waypoint on L1; waypoint 5 is at distance 10 and waypoint 9 at distance 3
from waypoint 0. -/
def scenario_navigation : Navigation :=
  { map_name := fun w => if w = 9 then "L2" else "L1",
    distance := fun _ w => if w = 5 then 10 else if w = 9 then 3 else 0 }

/-- The Active of the two-map scenario: the robot is at waypoint 0 on map L1 and
the Description accepts waypoint 5 and waypoint 9, in this order. -/
def scenario_active : GoToPlaceActive :=
  GoToPlaceActive.make 0
    { location := 0, map := "L1", dedicated_charger_wp := 5,
      worker := 0, clock := 0, recharge_soc := 0 }
    { one_of := [Goal.of_waypoint 5, Goal.of_waypoint 9], prefer_same_map := true }
    none 0 0 0

/-! ## Theorems -/

section Theorems

variable {σ S A L : Type}

/-- C1: for every waypoint `w`, every collaborator and every robot state, the
first element of the unfolded `ChargeBatteryEventDescription(w)` is
`GoToChargerDescription(w)`, and its Standby is made for the GoToPlace
description whose only destination is waypoint `w`, whatever the dedicated
charger of the context is. -/
theorem charge_battery_event_targets_given_waypoint (C : Collaborators σ S A L)
    (id : AssignIDPtr) (get_state : σ → State) (parameters : Parameters)
    (update : Callback) (now : σ) (w : Nat) :
    (charge_battery_event_unfolder
        (ChargeBatteryEventDescription.ctor_waypoint w)).dependencies.head?
      = some (EventDescription.go_to_charger (GoToChargerDescription.ctor_waypoint w))
    ∧ GoToChargerDescription.standby C id get_state parameters
        (GoToChargerDescription.ctor_waypoint w) update now
      = C.go_to_place_standby_make id get_state parameters
          (GoToPlaceDescription.make (Goal.of_waypoint w)) update none now
    ∧ (GoToPlaceDescription.make (Goal.of_waypoint w)).one_of = [Goal.of_waypoint w]
    ∧ (GoToPlaceDescription.make (Goal.of_waypoint w)).destination
      = some (Goal.of_waypoint w)
    ∧ (Goal.of_waypoint w).waypoint = w := by
  refine ⟨rfl, rfl, rfl, rfl, rfl⟩

/-- C2: the unfolder turns every `ChargeBatteryEventDescription` into a Sequence
bundle of category "Charge Battery" with exactly a `GoToChargerDescription`
followed by a `WaitForChargeDescription`; the former carries the flag of the
event description and, when the flag is set, its charger waypoint. -/
theorem charge_battery_event_unfolder_bundle (d : ChargeBatteryEventDescription) :
    ∃ g : GoToChargerDescription,
      charge_battery_event_unfolder d
        = { dependencies :=
              [EventDescription.go_to_charger g,
               EventDescription.wait_for_charge WaitForChargeDescription.ctor],
            type := BundleType.Sequence, category := some "Charge Battery",
            detail := none }
      ∧ g.has_charger_waypoint = d.has_charger_waypoint
      ∧ (d.has_charger_waypoint = true → g.charger_waypoint = d.charger_waypoint) := by
  cases h : d.has_charger_waypoint with
  | true =>
    refine ⟨GoToChargerDescription.ctor_waypoint d.charger_waypoint, ?_, rfl, fun _ => rfl⟩
    simp [charge_battery_event_unfolder, h]
  | false =>
    refine ⟨GoToChargerDescription.ctor, ?_, rfl, fun hf => ?_⟩
    · simp [charge_battery_event_unfolder, h]
    · exact absurd hf (by simp)

/-- Witness of C2 at the event description with charger waypoint 4. -/
theorem charge_battery_event_unfolder_bundle_witness :
    ∃ g : GoToChargerDescription,
      charge_battery_event_unfolder (ChargeBatteryEventDescription.ctor_waypoint 4)
        = { dependencies :=
              [EventDescription.go_to_charger g,
               EventDescription.wait_for_charge WaitForChargeDescription.ctor],
            type := BundleType.Sequence, category := some "Charge Battery",
            detail := none }
      ∧ g.has_charger_waypoint = true ∧ g.charger_waypoint = 4 := by
  obtain ⟨g, h1, h2, h3⟩ :=
    charge_battery_event_unfolder_bundle (ChargeBatteryEventDescription.ctor_waypoint 4)
  exact ⟨g, h1, h2, h3 rfl⟩

/-- C3: the Standby of a default-constructed `GoToChargerDescription` is made for
the GoToPlace description whose only destination is the dedicated charger
waypoint of the context that `get_state` returns at the call; that destination
differs from the placeholder 0 of `charger_waypoint` unless the dedicated
charger is waypoint 0. -/
theorem go_to_charger_default_targets_dedicated (C : Collaborators σ S A L)
    (id : AssignIDPtr) (get_state : σ → State) (parameters : Parameters)
    (update : Callback) (now : σ) :
    GoToChargerDescription.ctor.has_charger_waypoint = false
    ∧ GoToChargerDescription.standby C id get_state parameters
        GoToChargerDescription.ctor update now
      = C.go_to_place_standby_make id get_state parameters
          (GoToPlaceDescription.make
            (Goal.of_waypoint (get_state now).context.dedicated_charger_wp))
          update none now
    ∧ (GoToPlaceDescription.make
          (Goal.of_waypoint (get_state now).context.dedicated_charger_wp)).one_of
      = [Goal.of_waypoint (get_state now).context.dedicated_charger_wp]
    ∧ ((get_state now).context.dedicated_charger_wp ≠ 0 →
        (Goal.of_waypoint (get_state now).context.dedicated_charger_wp).waypoint
          ≠ GoToChargerDescription.ctor.charger_waypoint) := by
  refine ⟨rfl, rfl, rfl, fun h => ?_⟩
  simpa [Goal.of_waypoint, GoToChargerDescription.ctor] using h

/-- Witness of C3 at a robot whose dedicated charger is waypoint 7. -/
theorem go_to_charger_default_targets_dedicated_witness :
    GoToChargerDescription.standby recording 0 (fun _ => { context := sample_context })
        { battery_system := 0 } GoToChargerDescription.ctor 0 ()
      = some (GoToPlaceDescription.make (Goal.of_waypoint 7))
    ∧ (Goal.of_waypoint 7).waypoint ≠ GoToChargerDescription.ctor.charger_waypoint :=
  ⟨(go_to_charger_default_targets_dedicated recording 0
      (fun _ => { context := sample_context }) { battery_system := 0 } 0 ()).2.1,
   (go_to_charger_default_targets_dedicated recording 0
      (fun _ => { context := sample_context }) { battery_system := 0 } 0 ()).2.2.2
      (by decide)⟩

/-- The deserializer on a message without the member. -/
theorem deserialize_charge_battery_absent (place_deser : Json → DeserializedPlace)
    (msg : Json) (h : msg.find "charger_waypoint" = none) :
    deserialize_charge_battery place_deser msg
      = { description :=
            some (EventDescription.charge_battery_event ChargeBatteryEventDescription.ctor),
          errors := [] } := by
  simp [deserialize_charge_battery, h]

/-- The deserializer on a message whose member is not a place. -/
theorem deserialize_charge_battery_invalid (place_deser : Json → DeserializedPlace)
    (msg value : Json) (h : msg.find "charger_waypoint" = some value)
    (hp : (place_deser value).description = none) :
    deserialize_charge_battery place_deser msg
      = { description := none, errors := (place_deser value).errors } := by
  simp [deserialize_charge_battery, h, hp]

/-- The deserializer on a message whose member is a place. -/
theorem deserialize_charge_battery_valid (place_deser : Json → DeserializedPlace)
    (msg value : Json) (place : Goal) (h : msg.find "charger_waypoint" = some value)
    (hp : (place_deser value).description = some place) :
    deserialize_charge_battery place_deser msg
      = { description :=
            some (EventDescription.charge_battery_event
              (ChargeBatteryEventDescription.ctor_waypoint place.waypoint)),
          errors := [] } := by
  simp [deserialize_charge_battery, h, hp]

/-- C4: for every message and place deserializer, `deserialize_charge_battery`
yields either a description with no error or no description with the errors of
the place deserializer, and not both; it yields no description exactly when the
message has a `charger_waypoint` member that the place deserializer rejects;
without the member the description has no charger waypoint, and with a valid
member it has the waypoint of the deserialized place. -/
theorem deserialize_charge_battery_outcome (place_deser : Json → DeserializedPlace)
    (msg : Json) :
    (((deserialize_charge_battery place_deser msg).description ≠ none
        ∧ (deserialize_charge_battery place_deser msg).errors = [])
      ∨ ((deserialize_charge_battery place_deser msg).description = none
        ∧ ∃ value, msg.find "charger_waypoint" = some value
          ∧ (deserialize_charge_battery place_deser msg).errors
            = (place_deser value).errors))
    ∧ ¬ (((deserialize_charge_battery place_deser msg).description ≠ none
          ∧ (deserialize_charge_battery place_deser msg).errors = [])
        ∧ ((deserialize_charge_battery place_deser msg).description = none
          ∧ ∃ value, msg.find "charger_waypoint" = some value
            ∧ (deserialize_charge_battery place_deser msg).errors
              = (place_deser value).errors))
    ∧ ((deserialize_charge_battery place_deser msg).description = none
        ↔ ∃ value, msg.find "charger_waypoint" = some value
          ∧ (place_deser value).description = none)
    ∧ (msg.find "charger_waypoint" = none →
        (deserialize_charge_battery place_deser msg).description
          = some (EventDescription.charge_battery_event ChargeBatteryEventDescription.ctor)
        ∧ ChargeBatteryEventDescription.ctor.has_charger_waypoint = false)
    ∧ (∀ value place, msg.find "charger_waypoint" = some value →
        (place_deser value).description = some place →
        (deserialize_charge_battery place_deser msg).description
          = some (EventDescription.charge_battery_event
              (ChargeBatteryEventDescription.ctor_waypoint place.waypoint))
        ∧ (ChargeBatteryEventDescription.ctor_waypoint
              place.waypoint).has_charger_waypoint = true
        ∧ (ChargeBatteryEventDescription.ctor_waypoint
              place.waypoint).charger_waypoint = place.waypoint) := by
  refine ⟨?_, fun h => h.1.1 h.2.1, ?_, fun h => ?_, fun value place h hp => ?_⟩
  · cases h : msg.find "charger_waypoint" with
    | none => left; simp [deserialize_charge_battery_absent place_deser msg h]
    | some value =>
      cases hp : (place_deser value).description with
      | none =>
        right
        rw [deserialize_charge_battery_invalid place_deser msg value h hp]
        exact ⟨rfl, value, rfl, rfl⟩
      | some place =>
        left
        simp [deserialize_charge_battery_valid place_deser msg value place h hp]
  · cases h : msg.find "charger_waypoint" with
    | none => simp [deserialize_charge_battery_absent place_deser msg h]
    | some value =>
      cases hp : (place_deser value).description with
      | none =>
        rw [deserialize_charge_battery_invalid place_deser msg value h hp]
        simp [hp]
      | some place =>
        rw [deserialize_charge_battery_valid place_deser msg value place h hp]
        simp [hp]
  · exact ⟨by rw [deserialize_charge_battery_absent place_deser msg h], rfl⟩
  · exact ⟨by rw [deserialize_charge_battery_valid place_deser msg value place h hp],
      rfl, rfl⟩

/-- Witness of C4 at a message that names the place `lounge`, waypoint 9. -/
theorem deserialize_charge_battery_outcome_witness :
    (deserialize_charge_battery sample_place_deser
        (Json.object [("charger_waypoint", Json.string "lounge")])).description
      = some (EventDescription.charge_battery_event
          (ChargeBatteryEventDescription.ctor_waypoint 9))
    ∧ (deserialize_charge_battery sample_place_deser (Json.object [])).description
      = some (EventDescription.charge_battery_event ChargeBatteryEventDescription.ctor) :=
  ⟨((deserialize_charge_battery_outcome sample_place_deser
      (Json.object [("charger_waypoint", Json.string "lounge")])).2.2.2.2
      (Json.string "lounge") (Goal.of_waypoint 9) rfl (by decide)).1,
   ((deserialize_charge_battery_outcome sample_place_deser (Json.object [])).2.2.2.1
      rfl).1⟩

/-- C5, the code at the failing input: for a message whose `charger_waypoint`
member is not a place, `deserialize_charge_battery` yields no description and
the errors of the place deserializer, and not the default description that sends
the robot to its dedicated charger. -/
theorem deserialize_charge_battery_invalid_place_is_rejected :
    deserialize_charge_battery sample_place_deser
        (Json.object [("charger_waypoint", Json.string "nowhere")])
      = { description := none, errors := ["unknown place"] }
    ∧ (deserialize_charge_battery sample_place_deser
        (Json.object [("charger_waypoint", Json.string "nowhere")])).description
      ≠ some (EventDescription.charge_battery_event ChargeBatteryEventDescription.ctor) := by
  have h : deserialize_charge_battery sample_place_deser
        (Json.object [("charger_waypoint", Json.string "nowhere")])
      = { description := none, errors := ["unknown place"] } :=
    deserialize_charge_battery_invalid sample_place_deser _ (Json.string "nowhere")
      rfl (by decide)
  exact ⟨h, by rw [h]; simp⟩

/-- C7: on fresh registries, one call of `add_charge_battery` hands the caller's
event initializer exactly one registration, for `ChargeBatteryEventDescription`,
made of the event unfolder and a private initializer that, when the unfolder is
installed, already holds exactly one registration for `WaitForChargeDescription`
and one for `GoToChargerDescription`, each a standby factory with an active
factory. -/
theorem add_charge_battery_registers_once {R : Type} (C : Collaborators σ S A L)
    (schema : Json) (place : Json → DeserializedPlace) (phase_activator clock : Nat) :
    (∃ (wait_standby : StandbyFactory σ S WaitForChargeDescription)
        (wait_active : ActiveFactory σ A WaitForChargeDescription)
        (go_standby : StandbyFactory σ S GoToChargerDescription)
        (go_active : ActiveFactory σ A GoToChargerDescription),
      (add_charge_battery C schema { place := place, schemas := [], event := [] }
          ([] : List (TaskActivation R)) phase_activator [] clock).event_initializer
        = [Registration.charge_battery_event charge_battery_event_unfolder
            [Registration.wait_for_charge wait_standby wait_active,
             Registration.go_to_charger go_standby go_active]]
      ∧ GoToChargerDescription.add C (WaitForChargeDescription.add C [])
        = [Registration.wait_for_charge wait_standby wait_active,
           Registration.go_to_charger go_standby go_active])
    ∧ ((add_charge_battery C schema { place := place, schemas := [], event := [] }
          ([] : List (TaskActivation R)) phase_activator [] clock).event_initializer.map
        Registration.type).count DescriptionType.ChargeBatteryEventDescription = 1
    ∧ ((GoToChargerDescription.add C (WaitForChargeDescription.add C [])).map
        Registration.type).count DescriptionType.WaitForChargeDescription = 1
    ∧ ((GoToChargerDescription.add C (WaitForChargeDescription.add C [])).map
        Registration.type).count DescriptionType.GoToChargerDescription = 1
    ∧ (GoToChargerDescription.add C (WaitForChargeDescription.add C [])).map
        Registration.type
      = [DescriptionType.WaitForChargeDescription,
         DescriptionType.GoToChargerDescription]
    ∧ ∀ prior : Initializer σ S A,
        (add_charge_battery C schema { place := place, schemas := [], event := [] }
          ([] : List (TaskActivation R)) phase_activator prior clock).event_initializer
        = prior ++ [Registration.charge_battery_event charge_battery_event_unfolder
            (GoToChargerDescription.add C (WaitForChargeDescription.add C []))] := by
  refine ⟨⟨_, _, _, _, rfl, rfl⟩, rfl, rfl, rfl, rfl, fun _ => rfl⟩

/-- C9: for every request description, the task unfolder builds the task
"Charge Battery" with exactly one phase, whose event is the default-constructed
`ChargeBatteryEventDescription`; that event carries no charger waypoint, unfolds
to the default `GoToChargerDescription`, and its Standby is made for the
dedicated charger of the robot. -/
theorem charge_battery_task_targets_dedicated_charger {R : Type} (request : R) :
    (charge_battery_task_unfolder request).category = "Charge Battery"
    ∧ (charge_battery_task_unfolder request).stages
      = [{ phase :=
            { final_event :=
                EventDescription.charge_battery_event ChargeBatteryEventDescription.ctor,
              category := some "Charge Battery", detail := some "" },
           cancellation_sequence := [] }]
    ∧ (charge_battery_task_unfolder request).stages.length = 1
    ∧ ChargeBatteryEventDescription.ctor.has_charger_waypoint = false
    ∧ (charge_battery_event_unfolder ChargeBatteryEventDescription.ctor).dependencies
      = [EventDescription.go_to_charger GoToChargerDescription.ctor,
         EventDescription.wait_for_charge WaitForChargeDescription.ctor]
    ∧ ∀ (C : Collaborators σ S A L) (id : AssignIDPtr) (get_state : σ → State)
        (parameters : Parameters) (update : Callback) (now : σ),
        GoToChargerDescription.standby C id get_state parameters
            GoToChargerDescription.ctor update now
          = C.go_to_place_standby_make id get_state parameters
              (GoToPlaceDescription.make
                (Goal.of_waypoint (get_state now).context.dedicated_charger_wp))
              update none now := by
  refine ⟨rfl, rfl, rfl, rfl, rfl, fun _ _ _ _ _ _ => rfl⟩

/-- C10: the active factory that `GoToChargerDescription::add` and
`WaitForChargeDescription::add` register is the registered standby factory
followed by `begin(checkpoint, finished)` on the same arguments, and its result
is the same for any two backup JSON values. -/
theorem active_factory_is_standby_then_begin (C : Collaborators σ S A L)
    (initializer : Initializer σ S A) :
    (∃ (standby : StandbyFactory σ S GoToChargerDescription)
        (active : ActiveFactory σ A GoToChargerDescription),
      GoToChargerDescription.add C initializer
        = initializer ++ [Registration.go_to_charger standby active]
      ∧ standby = GoToChargerDescription.standby C
      ∧ (∀ id get_state parameters description backup update checkpoint finished now,
          active id get_state parameters description backup update checkpoint finished now
            = C.begin (standby id get_state parameters description update now)
                checkpoint finished)
      ∧ ∀ (j1 j2 : Json) id get_state parameters description update checkpoint
          finished now,
          active id get_state parameters description j1 update checkpoint finished now
            = active id get_state parameters description j2 update checkpoint finished
                now)
    ∧ ∃ (standby : StandbyFactory σ S WaitForChargeDescription)
        (active : ActiveFactory σ A WaitForChargeDescription),
      WaitForChargeDescription.add C initializer
        = initializer ++ [Registration.wait_for_charge standby active]
      ∧ standby = WaitForChargeDescription.standby C
      ∧ (∀ id get_state parameters description backup update checkpoint finished now,
          active id get_state parameters description backup update checkpoint finished now
            = C.begin (standby id get_state parameters description update now)
                checkpoint finished)
      ∧ ∀ (j1 j2 : Json) id get_state parameters description update checkpoint
          finished now,
          active id get_state parameters description j1 update checkpoint finished now
            = active id get_state parameters description j2 update checkpoint finished
                now := by
  refine ⟨⟨_, _, rfl, rfl, fun _ _ _ _ _ _ _ _ _ => rfl,
      fun _ _ _ _ _ _ _ _ _ _ => rfl⟩,
    ⟨_, _, rfl, rfl, fun _ _ _ _ _ _ _ _ _ => rfl, fun _ _ _ _ _ _ _ _ _ _ => rfl⟩⟩

/-- Once a Standby holds an Active, every further `begin` is an error and the
Standby is unchanged. -/
theorem begin_all_of_active (self : GoToPlaceStandby) (active : GoToPlaceActive)
    (h : self._active = some active) (calls : List (Callback × Callback)) :
    self.begin_all calls = (self, List.replicate calls.length none) := by
  induction calls with
  | nil => rfl
  | cons call calls ih =>
    simp [GoToPlaceStandby.begin_all, GoToPlaceStandby.begin, h, ih,
      List.replicate_succ]

/-- C8: a Standby built by `make` holds no Active; the first `begin` constructs
the Active from the members of the Standby and stores it; over every sequence of
`begin` calls only the first call constructs an Active, every later call is the
error `already_active`, so at most one Active is ever constructed. -/
theorem standby_begins_at_most_once (V : StandbyServices) (id : AssignIDPtr)
    (get_state : σ → State) (parameters : Parameters)
    (description : GoToPlaceDescription) (update : Callback)
    (tail_period : Option Duration) (now : σ) :
    (GoToPlaceStandby.make V id get_state parameters description update tail_period
        now)._active = none
    ∧ (∀ checkpoint finished : Callback,
        ∃ next active,
          (GoToPlaceStandby.make V id get_state parameters description update
              tail_period now).begin checkpoint finished = Except.ok (next, active)
          ∧ next._active = some active
          ∧ active = GoToPlaceActive.make id (get_state now).context description
              tail_period (V.new_state id) update finished
          ∧ ∀ checkpoint2 finished2 : Callback,
              next.begin checkpoint2 finished2
                = Except.error BeginError.already_active)
    ∧ ((GoToPlaceStandby.make V id get_state parameters description update
          tail_period now).begin_all []).2 = []
    ∧ (∀ (call : Callback × Callback) (calls : List (Callback × Callback)),
        ((GoToPlaceStandby.make V id get_state parameters description update
            tail_period now).begin_all (call :: calls)).2
          = some (GoToPlaceActive.make id (get_state now).context description
              tail_period (V.new_state id) update call.2)
            :: List.replicate calls.length none)
    ∧ ∀ calls : List (Callback × Callback),
        (((GoToPlaceStandby.make V id get_state parameters description update
            tail_period now).begin_all calls).2.filter Option.isSome).length ≤ 1 := by
  have hcons : ∀ (call : Callback × Callback) (calls : List (Callback × Callback)),
      ((GoToPlaceStandby.make V id get_state parameters description update
          tail_period now).begin_all (call :: calls)).2
        = some (GoToPlaceActive.make id (get_state now).context description
            tail_period (V.new_state id) update call.2)
          :: List.replicate calls.length none := by
    intro call calls
    simp only [GoToPlaceStandby.begin_all, GoToPlaceStandby.begin,
      GoToPlaceStandby.make]
    rw [begin_all_of_active _ _ rfl calls]
  refine ⟨rfl, fun checkpoint finished => ⟨_, _, rfl, rfl, rfl, fun _ _ => rfl⟩, rfl,
    hcons, fun calls => ?_⟩
  cases calls with
  | nil => simp [GoToPlaceStandby.begin_all]
  | cons call calls =>
    rw [hcons call calls]
    simp [List.filter_cons, List.filter_replicate]

/-- The scan of the candidates, for any starting `best`: the result is `none`
only if there was no `best` and no candidate qualifies; otherwise it is either
the starting `best`, which no qualifying candidate beats, or a qualifying
candidate that is strictly nearer than the starting `best` and than every
qualifying candidate before it, and at least as near as every one after it. -/
theorem nearest_characterisation (nav : Navigation) (self : GoToPlaceActive)
    (only_same_map : Bool) (goals : List Goal) :
    ∀ best : Option Goal,
      (GoToPlaceActive.nearest nav self only_same_map goals best = none
        ↔ best = none
          ∧ ∀ c ∈ goals, GoToPlaceActive.qualifies nav self only_same_map c = false)
      ∧ ∀ g, GoToPlaceActive.nearest nav self only_same_map goals best = some g →
          (best = some g
            ∧ ∀ c ∈ goals, GoToPlaceActive.qualifies nav self only_same_map c = true →
                nav.distance self._context.location g.waypoint
                  ≤ nav.distance self._context.location c.waypoint)
          ∨ ∃ pre post, goals = pre ++ g :: post
              ∧ GoToPlaceActive.qualifies nav self only_same_map g = true
              ∧ (∀ b, best = some b →
                  nav.distance self._context.location g.waypoint
                    < nav.distance self._context.location b.waypoint)
              ∧ (∀ c ∈ pre, GoToPlaceActive.qualifies nav self only_same_map c = true →
                  nav.distance self._context.location g.waypoint
                    < nav.distance self._context.location c.waypoint)
              ∧ ∀ c ∈ post, GoToPlaceActive.qualifies nav self only_same_map c = true →
                  nav.distance self._context.location g.waypoint
                    ≤ nav.distance self._context.location c.waypoint := by
  induction goals with
  | nil =>
    intro best
    refine ⟨by simp [GoToPlaceActive.nearest], fun g hg => Or.inl ⟨?_, by simp⟩⟩
    simpa [GoToPlaceActive.nearest] using hg
  | cons x xs ih =>
    intro best
    cases hq : GoToPlaceActive.qualifies nav self only_same_map x with
    | false =>
      have hstep : GoToPlaceActive.nearest nav self only_same_map (x :: xs) best
          = GoToPlaceActive.nearest nav self only_same_map xs best := by
        simp [GoToPlaceActive.nearest, hq]
      rw [hstep]
      obtain ⟨ih1, ih2⟩ := ih best
      refine ⟨?_, fun g hg => ?_⟩
      · rw [ih1]
        constructor
        · rintro ⟨hb, hall⟩
          refine ⟨hb, fun c hc => ?_⟩
          rcases List.mem_cons.1 hc with rfl | hc
          · exact hq
          · exact hall c hc
        · rintro ⟨hb, hall⟩
          exact ⟨hb, fun c hc => hall c (List.mem_cons_of_mem _ hc)⟩
      · rcases ih2 g hg with ⟨hb, hall⟩ | ⟨pre, post, hsplit, hg1, hg2, hg3, hg4⟩
        · left
          refine ⟨hb, fun c hc hqc => ?_⟩
          rcases List.mem_cons.1 hc with rfl | hc
          · rw [hq] at hqc; exact absurd hqc (by simp)
          · exact hall c hc hqc
        · right
          refine ⟨x :: pre, post, by rw [hsplit]; rfl, hg1, hg2, fun c hc hqc => ?_, hg4⟩
          rcases List.mem_cons.1 hc with rfl | hc
          · rw [hq] at hqc; exact absurd hqc (by simp)
          · exact hg3 c hc hqc
    | true =>
      cases best with
      | none =>
        have hstep : GoToPlaceActive.nearest nav self only_same_map (x :: xs) none
            = GoToPlaceActive.nearest nav self only_same_map xs (some x) := by
          simp [GoToPlaceActive.nearest, hq]
        rw [hstep]
        obtain ⟨ih1, ih2⟩ := ih (some x)
        refine ⟨?_, fun g hg => Or.inr ?_⟩
        · constructor
          · intro h
            exact absurd (ih1.1 h).1 (by simp)
          · rintro ⟨-, hall⟩
            have := hall x (List.mem_cons_self _ _)
            rw [hq] at this
            exact absurd this (by simp)
        · rcases ih2 g hg with ⟨hb, hall⟩ | ⟨pre, post, hsplit, hg1, hg2, hg3, hg4⟩
          · have hxg : x = g := by simpa using hb
            subst hxg
            exact ⟨[], xs, rfl, hq, by simp, by simp, hall⟩
          · refine ⟨x :: pre, post, by rw [hsplit]; rfl, hg1, by simp,
              fun c hc hqc => ?_, hg4⟩
            rcases List.mem_cons.1 hc with rfl | hc
            · exact hg2 c rfl
            · exact hg3 c hc hqc
      | some b =>
        by_cases hlt : nav.distance self._context.location x.waypoint
            < nav.distance self._context.location b.waypoint
        · have hstep : GoToPlaceActive.nearest nav self only_same_map (x :: xs) (some b)
              = GoToPlaceActive.nearest nav self only_same_map xs (some x) := by
            simp [GoToPlaceActive.nearest, hq, hlt]
          rw [hstep]
          obtain ⟨ih1, ih2⟩ := ih (some x)
          refine ⟨?_, fun g hg => Or.inr ?_⟩
          · constructor
            · intro h
              exact absurd (ih1.1 h).1 (by simp)
            · rintro ⟨h, -⟩
              exact absurd h (by simp)
          · rcases ih2 g hg with ⟨hb, hall⟩ | ⟨pre, post, hsplit, hg1, hg2, hg3, hg4⟩
            · have hxg : x = g := by simpa using hb
              subst hxg
              refine ⟨[], xs, rfl, hq, fun b2 hb2 => ?_, by simp, hall⟩
              have hbb : b = b2 := by simpa using hb2
              subst hbb
              exact hlt
            · refine ⟨x :: pre, post, by rw [hsplit]; rfl, hg1, fun b2 hb2 => ?_,
                fun c hc hqc => ?_, hg4⟩
              · have hbb : b = b2 := by simpa using hb2
                subst hbb
                exact lt_trans (hg2 x rfl) hlt
              · rcases List.mem_cons.1 hc with rfl | hc
                · exact hg2 c rfl
                · exact hg3 c hc hqc
        · have hstep : GoToPlaceActive.nearest nav self only_same_map (x :: xs) (some b)
              = GoToPlaceActive.nearest nav self only_same_map xs (some b) := by
            simp [GoToPlaceActive.nearest, hq, hlt]
          rw [hstep]
          obtain ⟨ih1, ih2⟩ := ih (some b)
          refine ⟨?_, fun g hg => ?_⟩
          · constructor
            · intro h
              exact absurd (ih1.1 h).1 (by simp)
            · rintro ⟨h, -⟩
              exact absurd h (by simp)
          · rcases ih2 g hg with ⟨hb, hall⟩ | ⟨pre, post, hsplit, hg1, hg2, hg3, hg4⟩
            · left
              have hbg : b = g := by simpa using hb
              subst hbg
              refine ⟨rfl, fun c hc hqc => ?_⟩
              rcases List.mem_cons.1 hc with rfl | hc
              · exact not_lt.1 hlt
              · exact hall c hc hqc
            · right
              refine ⟨x :: pre, post, by rw [hsplit]; rfl, hg1, hg2,
                fun c hc hqc => ?_, hg4⟩
              rcases List.mem_cons.1 hc with rfl | hc
              · exact lt_of_lt_of_le (hg2 b rfl) (not_lt.1 hlt)
              · exact hg3 c hc hqc

/-- C6: for every robot location, every non-empty list of acceptable
destinations and both values of `only_same_map`, `_choose_goal` returns `none`
exactly when no candidate qualifies, and otherwise a qualifying candidate of the
Description that is at least as near as every qualifying candidate and strictly
nearer than every qualifying candidate before it in Description order; with
`only_same_map` a candidate qualifies exactly when it is on the map of the
robot, and without it every candidate qualifies. -/
theorem choose_goal_nearest_qualifying (nav : Navigation) (self : GoToPlaceActive)
    (only_same_map : Bool) (_h : self._description.one_of ≠ []) :
    (self._choose_goal nav only_same_map = none
      ↔ ∀ c ∈ self._description.one_of,
          GoToPlaceActive.qualifies nav self only_same_map c = false)
    ∧ (∀ g, self._choose_goal nav only_same_map = some g →
        g ∈ self._description.one_of
        ∧ GoToPlaceActive.qualifies nav self only_same_map g = true
        ∧ (∀ c ∈ self._description.one_of,
            GoToPlaceActive.qualifies nav self only_same_map c = true →
              nav.distance self._context.location g.waypoint
                ≤ nav.distance self._context.location c.waypoint)
        ∧ ∃ pre post, self._description.one_of = pre ++ g :: post
            ∧ ∀ c ∈ pre, GoToPlaceActive.qualifies nav self only_same_map c = true →
                nav.distance self._context.location g.waypoint
                  < nav.distance self._context.location c.waypoint)
    ∧ (∀ c, GoToPlaceActive.qualifies nav self true c = true
        ↔ nav.map_name c.waypoint = self._context.map)
    ∧ ∀ c, GoToPlaceActive.qualifies nav self false c = true := by
  obtain ⟨h1, h2⟩ :=
    nearest_characterisation nav self only_same_map self._description.one_of none
  refine ⟨?_, fun g hg => ?_, fun c => ?_, fun c => ?_⟩
  · rw [GoToPlaceActive._choose_goal, h1]
    simp
  · rcases h2 g hg with ⟨hb, -⟩ | ⟨pre, post, hsplit, hg1, -, hg3, hg4⟩
    · exact absurd hb (by simp)
    · refine ⟨by rw [hsplit]; simp, hg1, fun c hc hqc => ?_, pre, post, hsplit, hg3⟩
      rw [hsplit] at hc
      rcases List.mem_append.1 hc with hc | hc
      · exact le_of_lt (hg3 c hc hqc)
      · rcases List.mem_cons.1 hc with rfl | hc
        · exact le_refl _
        · exact hg4 c hc hqc
  · simp [GoToPlaceActive.qualifies]
  · simp [GoToPlaceActive.qualifies]

/-- Witness of C6, the two-map scenario: the robot is at waypoint 0 on map L1,
the candidates are waypoint 5 on L1 at distance 10 and waypoint 9 on L2 at
distance 3; `only_same_map = true` selects 5 and `only_same_map = false`
selects 9, which is at least as near as every candidate. -/
theorem choose_goal_nearest_qualifying_witness :
    scenario_active._description.one_of = [Goal.of_waypoint 5, Goal.of_waypoint 9]
    ∧ scenario_active._choose_goal scenario_navigation true = some (Goal.of_waypoint 5)
    ∧ scenario_active._choose_goal scenario_navigation false = some (Goal.of_waypoint 9)
    ∧ ∀ c ∈ scenario_active._description.one_of,
        GoToPlaceActive.qualifies scenario_navigation scenario_active false c = true →
          scenario_navigation.distance scenario_active._context.location
              (Goal.of_waypoint 9).waypoint
            ≤ scenario_navigation.distance scenario_active._context.location c.waypoint :=
  ⟨rfl, by decide, by decide,
   ((choose_goal_nearest_qualifying scenario_navigation scenario_active false
      (by decide)).2.1 (Goal.of_waypoint 9) (by decide)).2.2.1⟩

end Theorems

end RmfFleetAdapter
